import Mathlib

/-!
Verification of the AutoNews job pipeline engine and automation scheduler.

Shallow embedding of the server-side core:
  - the content hash used for article deduplication
    (`generateContentHash` in server/jobs/scheduler.ts, `generateHash` in routes),
  - the job executor `processJob` (routes file), modelled as the sequence of
    job-status updates and artifact-row creations it performs, driven by an
    environment recording the outcome of each fallible collaborator call,
  - the storage operations `updateJobStatus`, `getJobsByTopic`, `getStuckJobs`,
    `getExistingArticleHashes`, `deleteJobsOlderThan` (server/storage.ts),
  - the scheduler's per-topic sync pass `performDailySync` and the stuck-job
    sweep `performHealthCheck` (server/jobs/scheduler.ts).

Machine integers of the JavaScript hash are modelled as `Int` with explicit
32-bit wrapping; article body text is modelled as its list of UTF-16 code
units (`List Nat`), matching `charCodeAt`.
-/

/-! ## Content hashing (scheduler.ts lines 189-198 and routes lines 267-276) -/

/-- JavaScript `ToInt32`: the result of `x & x` and the implicit conversion
done by `<<` — reduce modulo 2^32 into the signed range [-2^31, 2^31). -/
def toInt32 (n : Int) : Int :=
  let m := n % 4294967296
  if m < 2147483648 then m else m - 4294967296

/-- One iteration of the rolling hash loop:
`hash = ((hash << 5) - hash) + char; hash = hash & hash`.
The accumulator is always an int32, so `hash << 5` is `toInt32 (hash * 32)`,
and the trailing `& hash` is a second `toInt32`. -/
def hashStep (hash : Int) (char : Nat) : Int :=
  toInt32 (toInt32 (hash * 32) - hash + char)

/-- JavaScript `n.toString(16)` for a non-negative integer: lowercase hex. -/
def natToHexDigits (n : Nat) : String :=
  String.mk (Nat.toDigits 16 n)

/-- `generateContentHash` from server/jobs/scheduler.ts (lines 189-198):
fold the rolling hash over the code units of the content, then
`Math.abs(hash).toString(16)`. -/
def generateContentHash (content : List Nat) : String :=
  let hash := content.foldl hashStep 0
  natToHexDigits hash.natAbs

/-- `generateHash` from the routes file (lines 267-276); its body is
byte-identical to `generateContentHash` in scheduler.ts. -/
def generateHash (content : List Nat) : String :=
  let hash := content.foldl hashStep 0
  natToHexDigits hash.natAbs

/-! ## Job data model (shared/schema.ts) -/

/-- Job status values: "queued", "running", "completed", "failed". -/
inductive JStatus where
  | queued
  | running
  | completed
  | failed
deriving DecidableEq, Repr

/-- The terminal statuses of the job state machine. -/
def isTerminal : JStatus → Bool
  | .completed => true
  | .failed => true
  | _ => false

/-- The mutable job fields written by `storage.updateJobStatus`.
`updatedAt` is carried separately in the store-level model `JobRow`. -/
structure JobRec where
  status : JStatus
  progress : Nat
  error : Option String
deriving DecidableEq, Repr

/-- Schema defaults for a freshly created job: status "queued", progress 0,
error null. -/
def initialJobRec : JobRec :=
  { status := .queued, progress := 0, error := none }

/-- One call to `storage.updateJobStatus(id, status, error?, progress?)`:
`none` in the `error` / `progress` position means the argument was omitted
(`undefined`), in which case the stored field is left untouched;
`some e` means the argument was passed (possibly as null, `e = none`). -/
structure StatusUpdate where
  status : JStatus
  error : Option (Option String)
  progress : Option Nat
deriving DecidableEq, Repr

/-- Effect of `updateJobStatus` on the job's mutable fields
(storage.ts lines 186-203): status always written; error / progress written
only when the argument was not omitted. -/
def applyUpdate (j : JobRec) (u : StatusUpdate) : JobRec :=
  { status := u.status
    error := match u.error with
      | none => j.error
      | some e => e
    progress := match u.progress with
      | none => j.progress
      | some p => p }

/-- `updateJobStatus(id, "running", null, p)`. -/
def runningUpdate (p : Nat) : StatusUpdate :=
  { status := .running, error := some none, progress := some p }

/-- `updateJobStatus(id, "failed", msg)` — progress omitted. -/
def failedUpdate (msg : String) : StatusUpdate :=
  { status := .failed, error := some (some msg), progress := none }

/-- `updateJobStatus(id, "completed", null, 100)`. -/
def completedUpdate : StatusUpdate :=
  { status := .completed, error := some none, progress := some 100 }

/-- Successive job states produced by a sequence of updates (initial state
not included). -/
def statesFrom (j : JobRec) : List StatusUpdate → List JobRec
  | [] => []
  | u :: us => applyUpdate j u :: statesFrom (applyUpdate j u) us

/-- The job state after all updates have been applied. -/
def finalRec (j : JobRec) (us : List StatusUpdate) : JobRec :=
  us.foldl applyUpdate j

/-! ## The job executor `processJob` (routes file, lines 173-265) -/

/-- A fetched article as returned by `gnewsService.fetchArticles`; the body
text (`description`) is the list of UTF-16 code units. -/
structure FetchedArticle where
  title : String
  description : List Nat
  url : String
deriving DecidableEq, Repr

/-- The job row fields read by the executor. -/
structure JobInput where
  topic : String
  language : String
  targetLength : Nat
  autoPublish : Bool
deriving DecidableEq, Repr

/-- Outcome of each fallible collaborator call made during one run of
`processJob`. An `Except.error e` records the thrown error's message.
For the publish call the success payload is the upload status recorded in
the publication row. -/
structure Env where
  fetchArticles : Except String (List FetchedArticle)
  generateSummary : Except String Unit
  generateTTS : Except String Unit
  renderVideo : Except String Unit
  publishVideo : Except String String
deriving Repr

/-- Artifact rows inserted by the executor (and, for publications, by
`youtubeService.publishVideo`, which on failure inserts a publication row
with status "failed" before rethrowing — youtube.ts lines 89-101). -/
inductive Artifact where
  | article
  | summary
  | audio
  | video
  | publication (status : String)
deriving DecidableEq, Repr

/-- Shallow embedding of `processJob` (routes lines 173-265): the ordered
list of `updateJobStatus` calls it performs together with the artifact rows
it inserts.  The job row is assumed to exist (the "Job not found" guard is
not modelled).  Each branch lists the updates in execution order: the run
starts with `running/10`; each collaborator failure is caught by the
top-level catch, which issues `updateJobStatus(id, "failed", message)`.
After the render stage the executor sets `completed/100` and only then, when
`autoPublish` is set, calls `youtubeService.publishVideo`; a publish failure
reaches the same top-level catch. -/
def processJob (job : JobInput) (env : Env) : List StatusUpdate × List Artifact :=
  match env.fetchArticles with
  | .error e => ([runningUpdate 10, failedUpdate e], [])
  | .ok articles =>
    if articles.length = 0 then
      ([runningUpdate 10, failedUpdate "No articles found"], [])
    else
      match env.generateSummary with
      | .error e =>
        ([runningUpdate 10, runningUpdate 25, failedUpdate e], [.article])
      | .ok _ =>
        match env.generateTTS with
        | .error e =>
          ([runningUpdate 10, runningUpdate 25, runningUpdate 50, failedUpdate e],
           [.article, .summary])
        | .ok _ =>
          match env.renderVideo with
          | .error e =>
            ([runningUpdate 10, runningUpdate 25, runningUpdate 50, runningUpdate 75,
              failedUpdate e],
             [.article, .summary, .audio])
          | .ok _ =>
            if job.autoPublish then
              match env.publishVideo with
              | .error e =>
                ([runningUpdate 10, runningUpdate 25, runningUpdate 50, runningUpdate 75,
                  completedUpdate, failedUpdate e],
                 [.article, .summary, .audio, .video, .publication "failed"])
              | .ok st =>
                ([runningUpdate 10, runningUpdate 25, runningUpdate 50, runningUpdate 75,
                  completedUpdate],
                 [.article, .summary, .audio, .video, .publication st])
            else
              ([runningUpdate 10, runningUpdate 25, runningUpdate 50, runningUpdate 75,
                completedUpdate],
               [.article, .summary, .audio, .video])

/-- The error message format of a failed render call
(services/video.ts line 79): the thrown message names the video service. -/
def videoServiceError (detail : String) : String :=
  "Video service error: " ++ detail

/-! ## Trace checkers for the spec invariants -/

/-- Progress is non-decreasing between consecutive states that are both in
"running" status. -/
def runningMonotone : JobRec → List JobRec → Bool
  | _, [] => true
  | prev, s :: rest =>
    (!(prev.status == .running && s.status == .running)
      || decide (prev.progress ≤ s.progress))
    && runningMonotone s rest

/-- Every state reached satisfies: error is set iff status = failed. -/
def errorIffFailedOk (init : JobRec) (us : List StatusUpdate) : Bool :=
  (init :: statesFrom init us).all fun s => s.error.isSome == (s.status == .failed)

/-- Every state reached satisfies: status = completed implies progress = 100. -/
def completedImpliesHundred (init : JobRec) (us : List StatusUpdate) : Bool :=
  (init :: statesFrom init us).all fun s => !(s.status == .completed) || s.progress == 100

/-- Every state reached satisfies: progress = 100 implies status = completed. -/
def hundredImpliesCompleted (init : JobRec) (us : List StatusUpdate) : Bool :=
  (init :: statesFrom init us).all fun s => !(s.progress == 100) || s.status == .completed

/-- The full invariant of spec section 3 as claimed: progress non-decreasing
while running, progress = 100 iff completed, error set iff failed. -/
def specInvariantHolds (init : JobRec) (us : List StatusUpdate) : Bool :=
  runningMonotone init (statesFrom init us)
    && completedImpliesHundred init us
    && hundredImpliesCompleted init us
    && errorIffFailedOk init us

/-- No update with a terminal status is followed by any further update:
every terminal write is the last write of the run. -/
def terminalNotRemutated : List StatusUpdate → Bool
  | [] => true
  | [_] => true
  | u :: us => !isTerminal u.status && terminalNotRemutated us

/-- The run shape in which the executor re-mutates a terminal job: every
stage succeeded, the job is auto-publish, and the publish call failed. -/
def publishFailurePath (job : JobInput) (env : Env) : Bool :=
  job.autoPublish
    && (match env.fetchArticles with
        | .ok (_ :: _) => true
        | _ => false)
    && (match env.generateSummary with
        | .ok _ => true
        | .error _ => false)
    && (match env.generateTTS with
        | .ok _ => true
        | .error _ => false)
    && (match env.renderVideo with
        | .ok _ => true
        | .error _ => false)
    && (match env.publishVideo with
        | .ok _ => false
        | .error _ => true)

/-- In the publish-failure path the completed job is overwritten to failed,
with progress left at 100 and the error recorded; in every other path the
check is vacuous. -/
def publishFailureReverts (job : JobInput) (env : Env) : Bool :=
  let fin := finalRec initialJobRec (processJob job env).fst
  !(publishFailurePath job env)
    || (fin.status == .failed && fin.progress == 100 && fin.error.isSome)

/-! ## Store-level model: job rows (server/storage.ts) -/

/-- A row of the jobs table, with the fields the scheduler and reaper read.
Timestamps are abstract time points (naturals); each query computes its
cutoff in its own unit (days for `getJobsByTopic`, minutes for
`getStuckJobs`), matching the source. -/
structure JobRow where
  id : Nat
  topic : String
  status : JStatus
  progress : Nat
  error : Option String
  createdAt : Nat
  updatedAt : Nat
deriving DecidableEq, Repr

/-- An artifact row (article/summary/audio/video/publication) referencing its
job through the cascading foreign key. -/
structure ArtifactRow where
  id : Nat
  jobId : Nat
deriving DecidableEq, Repr

/-- `storage.getJobsByTopic(topic, daysSince)` (storage.ts lines 147-159):
jobs of the topic created at or after `now - daysSince` (the `gte` filter;
the result ordering is irrelevant to the claims and not modelled). -/
def getJobsByTopic (topic : String) (daysSince : Nat) (now : Nat)
    (store : List JobRow) : List JobRow :=
  let cutoffDate := now - daysSince
  store.filter fun j => j.topic == topic && decide (cutoffDate ≤ j.createdAt)

/-- `storage.getStuckJobs(minutesThreshold)` (storage.ts lines 161-172):
jobs with status "running" whose `updatedAt` is at or before
`now - minutesThreshold` (the `lte` filter). -/
def getStuckJobs (minutesThreshold : Nat) (now : Nat)
    (store : List JobRow) : List JobRow :=
  let cutoffTime := now - minutesThreshold
  store.filter fun j => j.status == .running && decide (j.updatedAt ≤ cutoffTime)

/-- `storage.updateJobStatus` applied to one row: status always written,
error / progress only when passed, `updatedAt` set to the write time. -/
def updateRow (status : JStatus) (error : Option (Option String))
    (progress : Option Nat) (writeTime : Nat) (j : JobRow) : JobRow :=
  { j with
    status := status
    updatedAt := writeTime
    error := match error with
      | none => j.error
      | some e => e
    progress := match progress with
      | none => j.progress
      | some p => p }

/-- `storage.updateJobStatus(id, ...)` at the store level: the `where id =`
update touches exactly the rows with the given id. -/
def updateJobStatusStore (id : Nat) (status : JStatus)
    (error : Option (Option String)) (progress : Option Nat) (writeTime : Nat)
    (store : List JobRow) : List JobRow :=
  store.map fun j => if j.id == id then updateRow status error progress writeTime j else j

/-- `performHealthCheck` (scheduler.ts lines 154-171): query the stuck jobs
(running, stale for 30 minutes) from the store as it was at query time, then
for each one blindly issue `updateJobStatus(job.id, "failed", "Job timed out")`
against the store as it is at write time.  Passing distinct `queryStore` and
`writeStore` models a store that changed between the query and the writes. -/
def performHealthCheck (now writeTime : Nat)
    (queryStore writeStore : List JobRow) : List JobRow :=
  let stuckJobs := getStuckJobs 30 now queryStore
  stuckJobs.foldl
    (fun st j =>
      updateJobStatusStore j.id .failed (some (some "Job timed out")) none writeTime st)
    writeStore

/-- The row transformation the reaper applies to a reaped job. -/
def reapRow (writeTime : Nat) (j : JobRow) : JobRow :=
  updateRow .failed (some (some "Job timed out")) none writeTime j

/-- `storage.deleteJobsOlderThan(date)` (storage.ts lines 209-216) together
with the schema's `on delete cascade`: remove every job row with
`createdAt ≤ date` (the `lte` filter), remove every artifact row whose job
was removed, and return the number of deleted job rows (the length of the
`returning` result). -/
def deleteJobsOlderThan (date : Nat) (jobStore : List JobRow)
    (artStore : List ArtifactRow) : List JobRow × List ArtifactRow × Nat :=
  let deleted := jobStore.filter fun j => decide (j.createdAt ≤ date)
  let remaining := jobStore.filter fun j => !decide (j.createdAt ≤ date)
  let remainingArts := artStore.filter fun a => remaining.any fun j => j.id == a.jobId
  (remaining, remainingArts, deleted.length)

/-! ## The scheduler's per-topic sync pass (scheduler.ts lines 84-152) -/

/-- `storage.getExistingArticleHashes(hashes)` (storage.ts lines 234-243):
of the stored article content hashes, those contained in the queried list. -/
def getExistingArticleHashes (hashes : List String)
    (storedHashes : List String) : List String :=
  if hashes.isEmpty then []
  else storedHashes.filter fun h => hashes.contains h

/-- The `InsertJob` payload fields set by a job-creation request. -/
structure InsertJobData where
  topic : String
  language : String
  targetLength : Nat
  autoPublish : Bool
  status : JStatus
  progress : Nat
deriving DecidableEq, Repr

/-- The job data built by the sync loop for each selected article
(scheduler.ts lines 124-132): autoPublish true, status "queued", progress 0,
language "en", randomized target length. -/
def syncJobData (topic : String) (len : Nat) : InsertJobData :=
  { topic := topic, language := "en", targetLength := len
    autoPublish := true, status := .queued, progress := 0 }

/-- The `for` loop over `articlesToProcess` (scheduler.ts lines 123-139):
one `createJob` per selected article, with a fresh random target length per
iteration (modelled by `randLen` applied to the iteration index). -/
def createJobsFor (topic : String) (randLen : Nat → Nat) :
    Nat → List FetchedArticle → List (FetchedArticle × InsertJobData)
  | _, [] => []
  | i, a :: rest => (a, syncJobData topic (randLen i)) :: createJobsFor topic randLen (i + 1) rest

/-- One topic's branch of `performDailySync` (scheduler.ts lines 88-144):
skip if the topic already has 3 or more jobs in the one-day lookback; skip on
fetch error (caught per topic) or empty fetch; drop candidates whose content
hash is already stored; take up to 2 of the remaining candidates and create
one queued job per candidate.  Returns the (article, created job) pairs. -/
def performTopicSync (topic : String) (now : Nat) (jobStore : List JobRow)
    (storedHashes : List String) (fetchResult : Except String (List FetchedArticle))
    (randLen : Nat → Nat) : List (FetchedArticle × InsertJobData) :=
  let recentJobs := getJobsByTopic topic 1 now jobStore
  if 3 ≤ recentJobs.length then []
  else
    match fetchResult with
    | .error _ => []
    | .ok articles =>
      if articles.length = 0 then []
      else
        let existingHashes := getExistingArticleHashes
          (articles.map fun a => generateContentHash a.description) storedHashes
        let newArticles := articles.filter
          fun article => !existingHashes.contains (generateContentHash article.description)
        if newArticles.length = 0 then []
        else createJobsFor topic randLen 0 (newArticles.take 2)

/-! ## Creation-triggers-execution traces -/

/-- The store/executor operations relevant to claim C3: creating a job row
and invoking `processJob` on a job id. -/
inductive SchedAction where
  | createJob (data : InsertJobData)
  | invokeProcessJob (jobId : Nat)
deriving DecidableEq, Repr

/-- Whether an action is an invocation of the executor. -/
def SchedAction.isInvoke : SchedAction → Bool
  | .invokeProcessJob _ => true
  | _ => false

/-- The actions performed by one topic's sync branch: the loop body
(scheduler.ts lines 123-139) calls `storage.createJob` for each selected
article — and nothing else; in particular it never calls `processJob`. -/
def performTopicSyncActions (topic : String) (now : Nat) (jobStore : List JobRow)
    (storedHashes : List String) (fetchResult : Except String (List FetchedArticle))
    (randLen : Nat → Nat) : List SchedAction :=
  (performTopicSync topic now jobStore storedHashes fetchResult randLen).map
    fun p => SchedAction.createJob p.2

/-- The actions performed by the manual create-job endpoint
(routes lines 63-82): `storage.createJob(jobData)` followed by the
asynchronous `processJob(job.id)` invocation. -/
def routeCreateJobActions (data : InsertJobData) (newId : Nat) : List SchedAction :=
  [.createJob data, .invokeProcessJob newId]

/-! ## Concrete instances used in witnesses and counterexamples -/

/-- A sample fetched article; its body text is the code units of "hi". -/
def sampleArticle : FetchedArticle :=
  { title := "Sample headline", description := [104, 105], url := "http://example.org/a" }

/-- A job with auto-publish enabled. -/
def jobAutoPublish : JobInput :=
  { topic := "technology", language := "en", targetLength := 90, autoPublish := true }

/-- A job with auto-publish disabled. -/
def jobManual : JobInput :=
  { topic := "economy", language := "en", targetLength := 90, autoPublish := false }

/-- A run in which every stage succeeds and the publish call fails. -/
def envPublishFails : Env :=
  { fetchArticles := .ok [sampleArticle], generateSummary := .ok ()
    generateTTS := .ok (), renderVideo := .ok ()
    publishVideo := .error "YouTube upload failed: 401 Unauthorized" }

/-- A run in which the article fetch succeeds with an empty list. -/
def envEmptyFetch : Env :=
  { fetchArticles := .ok [], generateSummary := .ok ()
    generateTTS := .ok (), renderVideo := .ok (), publishVideo := .ok "uploaded" }

/-- A run in which the render stage fails after fetch, summary and speech
synthesis succeeded. -/
def envRenderFails : Env :=
  { fetchArticles := .ok [sampleArticle], generateSummary := .ok ()
    generateTTS := .ok ()
    renderVideo := .error (videoServiceError "500 Internal Server Error - ffmpeg crashed")
    publishVideo := .ok "uploaded" }

/-- The reaper's query snapshot of a job: running and stale. -/
def reaperSnapshotRow : JobRow :=
  { id := 1, topic := "technology", status := .running, progress := 75
    error := none, createdAt := 0, updatedAt := 10 }

/-- The same job at write time: the executor completed it in the gap. -/
def reaperCompletedRow : JobRow :=
  { id := 1, topic := "technology", status := .completed, progress := 100
    error := none, createdAt := 0, updatedAt := 95 }

/-- A store with one stale running job, one fresh running job and one
completed job. -/
def reaperStore : List JobRow :=
  [{ id := 1, topic := "technology", status := .running, progress := 75
     error := none, createdAt := 0, updatedAt := 10 },
   { id := 2, topic := "economy", status := .running, progress := 25
     error := none, createdAt := 0, updatedAt := 90 },
   { id := 3, topic := "science", status := .completed, progress := 100
     error := none, createdAt := 0, updatedAt := 50 }]

/-- A store already holding three recent jobs for the topic "economy". -/
def quotaStore : List JobRow :=
  [{ id := 1, topic := "economy", status := .queued, progress := 0
     error := none, createdAt := 10, updatedAt := 10 },
   { id := 2, topic := "economy", status := .completed, progress := 100
     error := none, createdAt := 10, updatedAt := 12 },
   { id := 3, topic := "economy", status := .failed, progress := 10
     error := some "No articles found", createdAt := 10, updatedAt := 11 }]

/-- Two fetched candidates with byte-identical body text. -/
def dupArticleA : FetchedArticle :=
  { title := "Headline A", description := [104, 105], url := "http://example.org/1" }

/-- The second candidate with the same body text as `dupArticleA`. -/
def dupArticleB : FetchedArticle :=
  { title := "Headline B", description := [104, 105], url := "http://example.org/2" }

/-- A manual job-creation payload. -/
def sampleJobData : InsertJobData :=
  { topic := "economy", language := "en", targetLength := 90
    autoPublish := false, status := .queued, progress := 0 }

/-! ## Theorems -/

/-- C10: the content hash is a pure function of the input text — identical
input always yields identical output — and the scheduler's copy
`generateContentHash` and the executor's copy `generateHash` compute the same
value for every input, so intra-sync filtering and store-wide dedup agree on
hashes. -/
theorem contentHash_copies_agree :
    ∀ content : List Nat, generateContentHash content = generateHash content :=
  fun _ => rfl

/-- C2 (amended): across every executor run, progress never decreases while
status is running, the error field is set iff status is failed, and
status = completed implies progress = 100; the converse direction
(progress = 100 implies status = completed) holds exactly on the runs that
are not the auto-publish-failure run — in that one run the final failed
update leaves progress at 100. -/
theorem executor_invariants_amended :
    ∀ (job : JobInput) (env : Env),
      runningMonotone initialJobRec (statesFrom initialJobRec (processJob job env).fst) = true
      ∧ errorIffFailedOk initialJobRec (processJob job env).fst = true
      ∧ completedImpliesHundred initialJobRec (processJob job env).fst = true
      ∧ hundredImpliesCompleted initialJobRec (processJob job env).fst
          = !(publishFailurePath job env) := by
  intro job env
  obtain ⟨t, l, len, ap⟩ := job
  obtain ⟨f, s, tts, r, p⟩ := env
  cases ap <;> rcases f with e | (_ | ⟨a, rest⟩) <;> rcases s with e | u <;>
    rcases tts with e | u <;> rcases r with e | u <;> rcases p with e | st <;>
    exact ⟨rfl, rfl, rfl, rfl⟩

/-- C2 (counterexample): in the run where every stage succeeds, auto-publish
is set and the publish call fails, the claimed invariant bundle is violated:
the job ends with status failed and progress 100. -/
theorem executor_invariants_counterexample :
    specInvariantHolds initialJobRec (processJob jobAutoPublish envPublishFails).fst = false
    ∧ finalRec initialJobRec (processJob jobAutoPublish envPublishFails).fst
        = { status := .failed, progress := 100
            error := some "YouTube upload failed: 401 Unauthorized" } :=
  ⟨rfl, rfl⟩

/-- C1 (amended): an update with a terminal status is the last update of the
executor's run except in exactly one case: when auto-publish is set and the
publish call fails after every stage succeeded, the completed job is
overwritten to failed (error set, progress left at 100). -/
theorem terminal_no_remutation_amended :
    ∀ (job : JobInput) (env : Env),
      terminalNotRemutated (processJob job env).fst = !(publishFailurePath job env)
      ∧ publishFailureReverts job env = true := by
  intro job env
  obtain ⟨t, l, len, ap⟩ := job
  obtain ⟨f, s, tts, r, p⟩ := env
  cases ap <;> rcases f with e | (_ | ⟨a, rest⟩) <;> rcases s with e | u <;>
    rcases tts with e | u <;> rcases r with e | u <;> rcases p with e | st <;>
    exact ⟨rfl, rfl⟩

/-- C1 (counterexample): with auto-publish set and a failing publish call,
the executor issues a further status update after the completed one — the
job's completed status is reverted to failed. -/
theorem terminal_remutation_counterexample :
    terminalNotRemutated (processJob jobAutoPublish envPublishFails).fst = false
    ∧ (processJob jobAutoPublish envPublishFails).fst
        = [runningUpdate 10, runningUpdate 25, runningUpdate 50, runningUpdate 75,
           completedUpdate, failedUpdate "YouTube upload failed: 401 Unauthorized"]
    ∧ (finalRec initialJobRec (processJob jobAutoPublish envPublishFails).fst).status
        = .failed :=
  ⟨rfl, rfl, rfl⟩

/-- C6: when the article fetch returns an empty list, the executor performs
exactly the updates running/10 then failed with error "No articles found"
(progress omitted, so it stays 10), and creates no artifact rows. -/
theorem emptyFetch_fails_without_artifacts (job : JobInput) (env : Env)
    (h : env.fetchArticles = .ok []) :
    processJob job env = ([runningUpdate 10, failedUpdate "No articles found"], [])
    ∧ finalRec initialJobRec (processJob job env).fst
        = { status := .failed, progress := 10, error := some "No articles found" } := by
  obtain ⟨f, s, tts, r, p⟩ := env
  replace h : f = Except.ok [] := h
  subst h
  exact ⟨rfl, rfl⟩

/-- C6 (witness): the empty-fetch run evaluated on a concrete job. -/
theorem emptyFetch_fails_without_artifacts_witness :
    envEmptyFetch.fetchArticles = Except.ok []
    ∧ (processJob jobManual envEmptyFetch
          = ([runningUpdate 10, failedUpdate "No articles found"], [])
       ∧ finalRec initialJobRec (processJob jobManual envEmptyFetch).fst
          = { status := .failed, progress := 10, error := some "No articles found" }) :=
  ⟨rfl, emptyFetch_fails_without_artifacts jobManual envEmptyFetch rfl⟩

/-- C7: when fetch, summarization and speech synthesis succeed and the render
stage fails, the run ends failed with progress still 75 (the failure update
passes no progress), the error is the render collaborator's message, and the
article, summary and audio rows created before the failure remain — nothing
is rolled back and no video row is created. -/
theorem renderFailure_keeps_artifacts (job : JobInput) (env : Env)
    (a : FetchedArticle) (rest : List FetchedArticle) (d : String)
    (hf : env.fetchArticles = .ok (a :: rest))
    (hs : env.generateSummary = .ok ())
    (ht : env.generateTTS = .ok ())
    (hr : env.renderVideo = .error (videoServiceError d)) :
    (processJob job env).fst
      = [runningUpdate 10, runningUpdate 25, runningUpdate 50, runningUpdate 75,
         failedUpdate (videoServiceError d)]
    ∧ (processJob job env).snd = [.article, .summary, .audio]
    ∧ finalRec initialJobRec (processJob job env).fst
        = { status := .failed, progress := 75, error := some (videoServiceError d) } := by
  obtain ⟨f, s, tts, r, p⟩ := env
  replace hf : f = Except.ok (a :: rest) := hf
  replace hs : s = Except.ok () := hs
  replace ht : tts = Except.ok () := ht
  replace hr : r = Except.error (videoServiceError d) := hr
  subst hf; subst hs; subst ht; subst hr
  exact ⟨rfl, rfl, rfl⟩

/-- C7 (witness): the render-failure run evaluated on a concrete job. -/
theorem renderFailure_keeps_artifacts_witness :
    envRenderFails.fetchArticles = Except.ok [sampleArticle]
    ∧ envRenderFails.generateSummary = Except.ok ()
    ∧ envRenderFails.generateTTS = Except.ok ()
    ∧ envRenderFails.renderVideo
        = Except.error (videoServiceError "500 Internal Server Error - ffmpeg crashed")
    ∧ ((processJob jobAutoPublish envRenderFails).fst
        = [runningUpdate 10, runningUpdate 25, runningUpdate 50, runningUpdate 75,
           failedUpdate (videoServiceError "500 Internal Server Error - ffmpeg crashed")]
       ∧ (processJob jobAutoPublish envRenderFails).snd = [.article, .summary, .audio]
       ∧ finalRec initialJobRec (processJob jobAutoPublish envRenderFails).fst
          = { status := .failed, progress := 75
              error := some (videoServiceError "500 Internal Server Error - ffmpeg crashed") }) :=
  ⟨rfl, rfl, rfl, rfl,
    renderFailure_keeps_artifacts jobAutoPublish envRenderFails sampleArticle [] _
      rfl rfl rfl rfl⟩

/-- C3 (code refutation): every action trace of a topic's sync branch is free
of executor invocations — `performDailySync` only creates job rows — while
the manual create-job endpoint follows creation with a `processJob`
invocation; on a concrete sync input one job is created yet no execution is
triggered. -/
theorem scheduler_never_invokes_executor :
    (∀ (topic : String) (now : Nat) (jobStore : List JobRow) (storedHashes : List String)
      (fetchResult : Except String (List FetchedArticle)) (randLen : Nat → Nat),
      ((performTopicSyncActions topic now jobStore storedHashes fetchResult randLen).all
        fun a => !a.isInvoke) = true)
    ∧ routeCreateJobActions sampleJobData 7
        = [.createJob sampleJobData, .invokeProcessJob 7]
    ∧ performTopicSyncActions "technology" 10 [] [] (.ok [sampleArticle]) (fun _ => 90)
        = [.createJob (syncJobData "technology" 90)] := by
  refine ⟨?_, rfl, rfl⟩
  intro topic now jobStore storedHashes fetchResult randLen
  rw [List.all_eq_true]
  intro a ha
  unfold performTopicSyncActions at ha
  obtain ⟨p, hp, rfl⟩ := List.mem_map.mp ha
  rfl

/-- C8: a topic that already has at least 3 jobs inside the one-day lookback
window at the start of a sync pass gets no new jobs from that pass. -/
theorem topic_quota_respected (topic : String) (now : Nat) (jobStore : List JobRow)
    (storedHashes : List String) (fetchResult : Except String (List FetchedArticle))
    (randLen : Nat → Nat)
    (h : 3 ≤ (getJobsByTopic topic 1 now jobStore).length) :
    performTopicSync topic now jobStore storedHashes fetchResult randLen = [] := by
  unfold performTopicSync
  rw [if_pos h]

/-- C8 (witness): a store holding three recent "economy" jobs yields an empty
sync result for that topic. -/
theorem topic_quota_respected_witness :
    3 ≤ (getJobsByTopic "economy" 1 10 quotaStore).length
    ∧ performTopicSync "economy" 10 quotaStore [] (.ok [sampleArticle]) (fun _ => 60) = [] :=
  ⟨by decide, topic_quota_respected "economy" 10 quotaStore []
      (.ok [sampleArticle]) (fun _ => 60) (by decide)⟩

/-- Membership in the jobs created by the sync loop projects to membership in
the selected article list. -/
theorem mem_createJobsFor (topic : String) (randLen : Nat → Nat) :
    ∀ (i : Nat) (l : List FetchedArticle) (p : FetchedArticle × InsertJobData),
      p ∈ createJobsFor topic randLen i l → p.1 ∈ l := by
  intro i l
  induction l generalizing i with
  | nil =>
    intro p hp
    exact absurd hp (List.not_mem_nil p)
  | cons a rest ih =>
    intro p hp
    simp only [createJobsFor] at hp
    rcases List.mem_cons.mp hp with h | h
    · rw [h]
      exact List.mem_cons_self a rest
    · exact List.mem_cons_of_mem a (ih (i + 1) p h)

/-- C4 (amended): every candidate the sync pass selects for job creation has
a content hash absent from the store's article hashes — candidates whose
hash already exists in the store are dropped before job creation.  (The
at-most-one-job claim fails for identical candidates inside one fetch batch;
see the counterexample.) -/
theorem sync_drops_known_hashes :
    ∀ (topic : String) (now : Nat) (jobStore : List JobRow) (storedHashes : List String)
      (fetchResult : Except String (List FetchedArticle)) (randLen : Nat → Nat),
      ((performTopicSync topic now jobStore storedHashes fetchResult randLen).all
        fun p => !storedHashes.contains (generateContentHash p.1.description)) = true := by
  intro topic now jobStore storedHashes fetchResult randLen
  rw [List.all_eq_true]
  intro p hp
  rcases fetchResult with e | articles
  · unfold performTopicSync at hp
    dsimp only at hp
    rw [ite_self] at hp
    exact absurd hp (List.not_mem_nil p)
  · unfold performTopicSync at hp
    dsimp only at hp
    split at hp
    · exact absurd hp (List.not_mem_nil p)
    · split at hp
      · exact absurd hp (List.not_mem_nil p)
      · split at hp
        · exact absurd hp (List.not_mem_nil p)
        · have h1 := List.take_subset 2 _ (mem_createJobsFor _ _ _ _ _ hp)
          obtain ⟨hmem, hpred⟩ := List.mem_filter.mp h1
          rw [Bool.not_eq_true'] at hpred ⊢
          by_contra hc
          rw [Bool.not_eq_false] at hc
          have hmemS : generateContentHash p.1.description ∈ storedHashes :=
            List.elem_iff.mp hc
          have hcand : generateContentHash p.1.description
              ∈ List.map (fun a => generateContentHash a.description) articles :=
            List.mem_map_of_mem _ hmem
          have hE : generateContentHash p.1.description
              ∈ getExistingArticleHashes
                  (List.map (fun a => generateContentHash a.description) articles)
                  storedHashes := by
            unfold getExistingArticleHashes
            split
            · next hEmpty =>
                rw [List.isEmpty_iff] at hEmpty
                rw [hEmpty] at hcand
                exact absurd hcand (List.not_mem_nil _)
            · exact List.mem_filter.mpr ⟨hmemS, List.elem_iff.mpr hcand⟩
          have hcontains : (getExistingArticleHashes
              (List.map (fun a => generateContentHash a.description) articles)
              storedHashes).contains (generateContentHash p.1.description) = true :=
            List.elem_iff.mpr hE
          rw [hcontains] at hpred
          exact Bool.noConfusion hpred

/-- C4 (counterexample): two fetched candidates with byte-identical body
text both pass the store-hash filter of a single sync pass, so two jobs are
created for the same content — "at most one job across repeated sync passes"
already fails within one pass. -/
theorem sync_dedup_counterexample :
    dupArticleA.description = dupArticleB.description
    ∧ (performTopicSync "economy" 10 [] [] (.ok [dupArticleA, dupArticleB])
        (fun _ => 60)).length = 2 :=
  ⟨rfl, rfl⟩

/-- The reaped row keeps its id. -/
theorem reapRow_id (writeTime : Nat) (x : JobRow) : (reapRow writeTime x).id = x.id := rfl

/-- Reaping a row twice equals reaping it once. -/
theorem reapRow_idem (writeTime : Nat) (x : JobRow) :
    reapRow writeTime (reapRow writeTime x) = reapRow writeTime x := rfl

/-- A fold of per-id row updates over the store is the row-wise fold of the
updates. -/
theorem sweep_foldl_map (writeTime : Nat) (l : List JobRow) (xs : List JobRow) :
    l.foldl (fun st j => st.map fun x => if x.id == j.id then reapRow writeTime x else x) xs
      = xs.map fun x =>
          l.foldl (fun b j => if b.id == j.id then reapRow writeTime b else b) x := by
  induction l generalizing xs with
  | nil => simp
  | cons j l ih =>
    rw [List.foldl_cons, ih, List.map_map]
    rfl

/-- Folding the reap updates of a list of jobs over one row either reaps the
row once (when some job in the list shares its id) or leaves it unchanged. -/
theorem foldl_reap (writeTime : Nat) (l : List JobRow) (x : JobRow) :
    l.foldl (fun b j => if b.id == j.id then reapRow writeTime b else b) x
      = if l.any (fun j => x.id == j.id) then reapRow writeTime x else x := by
  induction l generalizing x with
  | nil => simp
  | cons j l ih =>
    simp only [List.foldl_cons, List.any_cons]
    by_cases h : (x.id == j.id) = true
    · rw [if_pos h, ih]
      simp [h, reapRow_id, reapRow_idem]
    · rw [if_neg h, ih]
      simp [h]

/-- C5 (amended): on a sweep with no concurrent store modification, every
running job whose updatedAt is at or before now minus the 30-minute
threshold is set to failed with error "Job timed out" (progress untouched),
and every other job — including running jobs updated within the threshold —
is left unchanged.  The write is an unconditional updateJobStatus, not a
compare-and-swap; see the counterexample for the race. -/
theorem reaper_sweep_blind_update (now writeTime : Nat) (store : List JobRow)
    (hinj : ∀ a ∈ store, ∀ b ∈ store, a.id = b.id → a = b) :
    performHealthCheck now writeTime store store
      = store.map fun j =>
          if j.status == JStatus.running && decide (j.updatedAt ≤ now - 30)
          then reapRow writeTime j else j := by
  show (getStuckJobs 30 now store).foldl
      (fun st j => st.map fun x => if x.id == j.id then reapRow writeTime x else x) store
    = _
  rw [sweep_foldl_map]
  refine List.map_congr_left ?_
  intro x hx
  rw [foldl_reap]
  have hcond : ((getStuckJobs 30 now store).any fun j => x.id == j.id)
      = (x.status == JStatus.running && decide (x.updatedAt ≤ now - 30)) := by
    cases hrhs : (x.status == JStatus.running && decide (x.updatedAt ≤ now - 30)) with
    | true =>
      refine List.any_eq_true.mpr ⟨x, ?_, ?_⟩
      · exact List.mem_filter.mpr ⟨hx, hrhs⟩
      · exact beq_iff_eq.mpr rfl
    | false =>
      rw [Bool.eq_false_iff]
      intro hany
      obtain ⟨j, hj, hbeq⟩ := List.any_eq_true.mp hany
      obtain ⟨hjmem, hjpred⟩ := List.mem_filter.mp hj
      have hjx : j = x := hinj j hjmem x hx (beq_iff_eq.mp hbeq).symm
      rw [hjx] at hjpred
      rw [hjpred] at hrhs
      exact Bool.noConfusion hrhs
  rw [hcond]

/-- C5 (witness): the sweep evaluated on a store with one stale running job,
one fresh running job and one completed job. -/
theorem reaper_sweep_blind_update_witness :
    (∀ a ∈ reaperStore, ∀ b ∈ reaperStore, a.id = b.id → a = b)
    ∧ performHealthCheck 100 101 reaperStore reaperStore
        = reaperStore.map fun j =>
            if j.status == JStatus.running && decide (j.updatedAt ≤ 100 - 30)
            then reapRow 101 j else j :=
  ⟨by decide, reaper_sweep_blind_update 100 101 reaperStore (by decide)⟩

/-- C5 (counterexample): the write is not a compare-and-swap — when the job
completed between the reaper's query and its write, the write still
overwrites the completed job to failed instead of leaving it untouched. -/
theorem reaper_cas_counterexample :
    reaperCompletedRow.status = JStatus.completed
    ∧ performHealthCheck 100 101 [reaperSnapshotRow] [reaperCompletedRow]
        = [{ reaperCompletedRow with
              status := JStatus.failed, error := some "Job timed out", updatedAt := 101 }] :=
  ⟨rfl, rfl⟩

/-- Lengths of a Boolean filter and its complement partition the length. -/
theorem filter_partition_length {α : Type} (p : α → Bool) (l : List α) :
    (l.filter fun a => !p a).length + (l.filter p).length = l.length := by
  induction l with
  | nil => rfl
  | cons a rest ih =>
    cases h : p a <;> simp [List.filter_cons, h] <;> omega

/-- C9: deleteJobsOlderThan(cutoff) removes exactly the jobs with
createdAt ≤ cutoff, returns the number of jobs deleted, cascades to the
artifact rows of deleted jobs, and leaves jobs with createdAt after the
cutoff — and their artifacts — in the store. -/
theorem deleteJobsOlderThan_spec :
    ∀ (date : Nat) (jobStore : List JobRow) (artStore : List ArtifactRow),
      (∀ j : JobRow, j ∈ (deleteJobsOlderThan date jobStore artStore).1
          ↔ j ∈ jobStore ∧ date < j.createdAt)
      ∧ (deleteJobsOlderThan date jobStore artStore).2.2
          = jobStore.countP (fun j => decide (j.createdAt ≤ date))
      ∧ (deleteJobsOlderThan date jobStore artStore).1.length
          + (deleteJobsOlderThan date jobStore artStore).2.2 = jobStore.length
      ∧ (∀ a : ArtifactRow, a ∈ (deleteJobsOlderThan date jobStore artStore).2.1
          ↔ a ∈ artStore
            ∧ ∃ j ∈ (deleteJobsOlderThan date jobStore artStore).1, j.id = a.jobId) := by
  intro date jobStore artStore
  refine ⟨?_, ?_, ?_, ?_⟩
  · intro j
    simp [deleteJobsOlderThan, List.mem_filter, Nat.not_le]
  · simp [deleteJobsOlderThan, List.countP_eq_length_filter]
  · exact filter_partition_length (fun j => decide (j.createdAt ≤ date)) jobStore
  · intro a
    simp [deleteJobsOlderThan, List.mem_filter, List.any_eq_true, beq_iff_eq, Nat.not_le,
      and_assoc]
